import Mathlib

set_option maxHeartbeats 1000000

/-!
Shallow embedding of `tools/check_apk_alignment.py`.

The script resolves an archive path from `sys.argv` (line 3), exits with
status 2 when the file does not exist (lines 4-7), opens the archive with
`zipfile.ZipFile` (line 9) and, for each of two hardcoded library names
(line 10), looks the name up in the central directory (`getinfo`,
lines 14-18), reads the 30-byte local file header at `header_offset`
(lines 20-25), parses the two little-endian length fields at offsets 26
and 28 (lines 26-27), and reports the derived
`data_offset = header_offset + 30 + filename_len + extra_len` together
with its residue modulo 16384 (lines 28-36).

The embedding represents a run as the list of effects the script performs
(file-existence check, zip open, per-entry open/seek/read, line prints,
explicit exit, unhandled exception); stdout, the exit code and the crash
flag are extracted from that trace.
-/

/-- Central-directory record for one archive entry, as exposed by
`zipfile.ZipInfo`: the fields the script reads. -/
structure ZipEntryInfo where
  header_offset : Nat
  compress_type : Nat
  file_size : Nat
  compress_size : Nat
  deriving DecidableEq, Repr

/-- A zip archive: its raw bytes (each a value 0-255) together with the
central directory, a list of (entry name, record) pairs in file order. -/
structure ZipArchive where
  bytes : List Nat
  entries : List (String × ZipEntryInfo)
  deriving DecidableEq, Repr

/-- `z.getinfo(name)` (line 15): `zipfile` builds its name-to-info
dictionary by inserting central-directory entries in order, a later
duplicate overwriting an earlier one; `none` models the `KeyError`
raised for an absent name (line 16). -/
def getinfo (z : ZipArchive) (name : String) : Option ZipEntryInfo :=
  z.entries.foldl (fun acc p => if p.1 = name then some p.2 else acc) none

/-- `f.seek(off); f.read(n)` (lines 21-22): reading near the end of the
file returns only the bytes available. -/
def readBytes (bytes : List Nat) (off n : Nat) : List Nat :=
  (bytes.drop off).take n

/-- `struct.unpack_from('<H', hdr, off)[0]` (lines 26-27): 2-byte
little-endian unsigned integer at byte offset `off` of `hdr`. -/
def le16 (hdr : List Nat) (off : Nat) : Nat :=
  hdr.getD off 0 + 256 * hdr.getD (off + 1) 0

/-- Outcome of the loop body (lines 14-28) for one entry name. -/
inductive EntryResult where
  | notFound
  | headerReadFailure (info : ZipEntryInfo)
  | report (info : ZipEntryInfo) (filename_len extra_len data_offset : Nat)
  deriving DecidableEq, Repr

/-- Loop body of lines 14-28 for one entry name: central-directory
lookup, local-header read, length-field parse, offset derivation. -/
def processEntry (z : ZipArchive) (name : String) : EntryResult :=
  match getinfo z name with
  | none => .notFound
  | some info =>
    let hdr := readBytes z.bytes info.header_offset 30
    if hdr.length < 30 then
      .headerReadFailure info
    else
      let filename_len := le16 hdr 26
      let extra_len := le16 hdr 28
      .report info filename_len extra_len
        (info.header_offset + 30 + filename_len + extra_len)

/-- What the filesystem holds at a path: a parseable zip archive, or a
file that exists but on which `zipfile.ZipFile` (line 9) raises
`BadZipFile`. -/
inductive FileContent where
  | zip (z : ZipArchive)
  | notZip
  deriving DecidableEq, Repr

/-- The filesystem the script runs against: a map from paths to file
content, `none` when no file exists at the path. -/
structure FS where
  lookup : String → Option FileContent

/-- One observable effect of a run.  `writeOp` and `printErr` are part of
the effect vocabulary so that the read-only/stdout-only frame claims are
meaningful; the script never emits them. -/
inductive Eff where
  | existsCheck (path : String)
  | openZip (path : String)
  | openRead (path : String)
  | seekOp (path : String) (off : Nat)
  | readOp (path : String) (n : Nat)
  | writeOp (path : String) (newContent : FileContent)
  | printOut (line : String)
  | printErr (line : String)
  | exitOp (code : Nat)
  | raiseOp (msg : String)
  deriving DecidableEq, Repr

/-- Line 3: `apk = sys.argv[1] if len(sys.argv) > 1 else '...'`. -/
def defaultApk : String := "app/build/outputs/apk/debug/app-debug.apk"

/-- `sys.argv[1]` when present, else the default path (line 3). -/
def resolveApk (argv : List String) : String :=
  match argv with
  | _ :: a :: _ => a
  | _ => defaultApk

/-- Line 6 (the leading newline of the Python literal is the blank output
line preceding this one). -/
def usageLine : String := "Usage: python tools/check_apk_alignment.py [path/to/app.apk]"

/-- Line 10: the hardcoded entry names, in order. -/
def libraries : List String :=
  ["lib/arm64-v8a/liboboe.so", "lib/arm64-v8a/liboboe_synth.so"]

/-- Effects of one iteration of the loop (lines 13-36): lookup outcome
rendered as prints, with the `open(apk,'rb')`/seek/read effects of
lines 20-22 when the entry was found. -/
def entryEff (apk : String) (z : ZipArchive) (name : String) : List Eff :=
  match processEntry z name with
  | .notFound => [.printOut (name ++ " NOT FOUND")]
  | .headerReadFailure info =>
      [.openRead apk, .seekOp apk info.header_offset, .readOp apk 30,
       .printOut (name ++ " failed to read local header")]
  | .report info _flen _elen data_offset =>
      [.openRead apk, .seekOp apk info.header_offset, .readOp apk 30,
       .printOut name,
       .printOut ("  compress_type: " ++ toString info.compress_type ++
         " (0 = stored/uncompressed)"),
       .printOut ("  header_offset: " ++ toString info.header_offset),
       .printOut ("  data_offset  : " ++ toString data_offset),
       .printOut ("  data_offset % 16384 = " ++ toString (data_offset % 16384)),
       .printOut ("  file_size    : " ++ toString info.file_size),
       .printOut ("  compress_size: " ++ toString info.compress_size),
       .printOut ""]

/-- The whole script as its effect trace: existence check (line 4),
missing-archive branch (lines 5-7), `ZipFile` open (line 9) which raises
`BadZipFile` on a non-zip file, header prints (lines 11-12) and the
entry loop (lines 13-36). -/
def runEff (fs : FS) (argv : List String) : List Eff :=
  Eff.existsCheck (resolveApk argv) ::
  match fs.lookup (resolveApk argv) with
  | none =>
      [.printOut ("APK not found at " ++ resolveApk argv),
       .printOut "", .printOut usageLine, .exitOp 2]
  | some .notZip =>
      [.openZip (resolveApk argv), .raiseOp "BadZipFile"]
  | some (.zip z) =>
      Eff.openZip (resolveApk argv) ::
      Eff.printOut ("Checking: " ++ resolveApk argv) ::
      Eff.printOut "" ::
      libraries.flatMap (entryEff (resolveApk argv) z)

/-- Lines printed to standard output during a run. -/
def outputOf (effs : List Eff) : List String :=
  effs.filterMap fun e =>
    match e with
    | .printOut s => some s
    | _ => none

/-- Whether an effect is an explicit `exit(...)`. -/
def isExitEff : Eff → Bool
  | .exitOp _ => true
  | _ => false

/-- Whether an effect is an unhandled exception. -/
def isRaiseEff : Eff → Bool
  | .raiseOp _ => true
  | _ => false

/-- Whether an effect writes to the filesystem. -/
def isWriteEff : Eff → Bool
  | .writeOp _ _ => true
  | _ => false

/-- Whether an effect prints to standard error. -/
def isErrPrintEff : Eff → Bool
  | .printErr _ => true
  | _ => false

/-- Whether an effect opens the archive (for the central directory or for
a raw header read). -/
def isOpenEff : Eff → Bool
  | .openZip _ => true
  | .openRead _ => true
  | _ => false

/-- Process exit status of a trace: the first explicit `exit(c)` yields
`c`, an unhandled exception makes the interpreter exit with status 1,
and a run that completes exits with status 0. -/
def exitCodeOf : List Eff → Nat
  | [] => 0
  | e :: rest =>
    match e with
    | .exitOp c => c
    | .raiseOp _ => 1
    | _ => exitCodeOf rest

/-- Whether the run ended in an unhandled exception. -/
def crashedOf (effs : List Eff) : Bool :=
  effs.any isRaiseEff

/-- Effect of one trace element on the filesystem: only a write changes
it. -/
def applyEff (fs : FS) (e : Eff) : FS :=
  match e with
  | .writeOp path c => ⟨fun q => if q = path then some c else fs.lookup q⟩
  | _ => fs

/-- Filesystem after a trace has run. -/
def finalFS (fs : FS) (effs : List Eff) : FS :=
  effs.foldl applyEff fs

/-- Specification-side definition, following the spec's data model: the
local file header is the fixed 30-byte structure situated at
`header_offset`, with 2-byte little-endian length fields at its byte
offsets 26 and 28, and
`data_offset = header_offset + 30 + filename_length + extra_length`. -/
def dataOffsetSpec (bytes : List Nat) (H : Nat) : Nat :=
  H + 30 + (bytes.getD (H + 26) 0 + 256 * bytes.getD (H + 27) 0)
         + (bytes.getD (H + 28) 0 + 256 * bytes.getD (H + 29) 0)

/-! Concrete sample data for witnesses and counterexamples. -/

/-- A 30-byte local header: zip local-header signature, then zeros, with
filename-length field 5 and extra-length field 2. -/
def hdrBytesA : List Nat :=
  [80, 75, 3, 4] ++ List.replicate 22 0 ++ [5, 0, 2, 0]

/-- A 30-byte local header with filename-length field 24 and
extra-length field 0. -/
def hdrBytesB : List Nat :=
  [80, 75, 3, 4] ++ List.replicate 22 0 ++ [24, 0, 0, 0]

/-- A central-directory record placing the local header at offset 0. -/
def infoA : ZipEntryInfo := ⟨0, 0, 100, 100⟩

/-- Archive containing the first library with header `hdrBytesA`. -/
def zipA : ZipArchive := ⟨hdrBytesA, [("lib/arm64-v8a/liboboe.so", infoA)]⟩

/-- Archive containing the first library with header `hdrBytesB`
(zero extra-field length). -/
def zipB : ZipArchive := ⟨hdrBytesB, [("lib/arm64-v8a/liboboe.so", infoA)]⟩

/-- Archive whose central directory lists the first library but whose
byte content is truncated to 2 bytes. -/
def zipTrunc : ZipArchive := ⟨[80, 75], [("lib/arm64-v8a/liboboe.so", infoA)]⟩

/-- Archive containing neither target library. -/
def zipEmpty : ZipArchive := ⟨[], []⟩

/-- Filesystem with a single file. -/
def fsWith (path : String) (c : FileContent) : FS :=
  ⟨fun p => if p = path then some c else none⟩

/-- Empty filesystem. -/
def fsEmpty : FS := ⟨fun _ => none⟩

/-! Helper lemmas. -/

/-- Reading byte `i` of the 30-byte header slice is reading byte
`H + i` of the archive. -/
theorem readBytes_getD (bytes : List Nat) (H i : Nat) (hi : i < 30) :
    (readBytes bytes H 30).getD i 0 = bytes.getD (H + i) 0 := by
  unfold readBytes
  rw [List.getD_eq_getElem?_getD, List.getD_eq_getElem?_getD,
    List.getElem?_take, List.getElem?_drop]
  simp [hi]

/-- Inversion for the report case of `processEntry`. -/
theorem processEntry_report_inv {z : ZipArchive} {name : String}
    {info : ZipEntryInfo} {flen elen d : Nat}
    (h : processEntry z name = .report info flen elen d) :
    getinfo z name = some info ∧
    flen = le16 (readBytes z.bytes info.header_offset 30) 26 ∧
    elen = le16 (readBytes z.bytes info.header_offset 30) 28 ∧
    d = info.header_offset + 30 + flen + elen := by
  unfold processEntry at h
  cases hg : getinfo z name with
  | none => rw [hg] at h; simp at h
  | some i =>
    rw [hg] at h
    dsimp only at h
    split at h
    · simp at h
    · injection h with h1 h2 h3 h4
      subst h1; subst h2; subst h3; subst h4
      exact ⟨rfl, rfl, rfl, rfl⟩

/-- Trace of a run against a missing file. -/
theorem runEff_none {fs : FS} {argv : List String}
    (h : fs.lookup (resolveApk argv) = none) :
    runEff fs argv =
      [.existsCheck (resolveApk argv),
       .printOut ("APK not found at " ++ resolveApk argv),
       .printOut "", .printOut usageLine, .exitOp 2] := by
  unfold runEff
  rw [h]

/-- Trace of a run against a readable zip archive. -/
theorem runEff_zip {fs : FS} {argv : List String} {z : ZipArchive}
    (h : fs.lookup (resolveApk argv) = some (.zip z)) :
    runEff fs argv =
      Eff.existsCheck (resolveApk argv) ::
      Eff.openZip (resolveApk argv) ::
      Eff.printOut ("Checking: " ++ resolveApk argv) ::
      Eff.printOut "" ::
      libraries.flatMap (entryEff (resolveApk argv) z) := by
  unfold runEff
  rw [h]

/-- Trace of a run against an existing file that is not a zip. -/
theorem runEff_notZip {fs : FS} {argv : List String}
    (h : fs.lookup (resolveApk argv) = some .notZip) :
    runEff fs argv =
      [.existsCheck (resolveApk argv), .openZip (resolveApk argv),
       .raiseOp "BadZipFile"] := by
  unfold runEff
  rw [h]

/-- Per-entry effects are never writes, stderr prints, exits or raises. -/
theorem entryEff_benign {apk : String} {z : ZipArchive} {name : String} :
    ∀ e ∈ entryEff apk z name,
      isWriteEff e = false ∧ isErrPrintEff e = false ∧
      isExitEff e = false ∧ isRaiseEff e = false := by
  intro e he
  cases hp : processEntry z name <;> rw [entryEff, hp] at he <;>
    simp only [List.mem_cons, List.not_mem_nil, or_false] at he <;>
    rcases he with rfl | rfl | rfl | rfl | rfl | rfl | rfl | rfl | rfl | rfl | rfl <;>
    exact ⟨rfl, rfl, rfl, rfl⟩

/-- In the readable-zip case every effect of the run is a read-style
effect or a stdout print. -/
theorem runEff_zip_benign {fs : FS} {argv : List String} {z : ZipArchive}
    (h : fs.lookup (resolveApk argv) = some (.zip z)) :
    ∀ e ∈ runEff fs argv,
      isWriteEff e = false ∧ isErrPrintEff e = false ∧
      isExitEff e = false ∧ isRaiseEff e = false := by
  intro e he
  rw [runEff_zip h] at he
  simp only [List.mem_cons] at he
  rcases he with rfl | rfl | rfl | rfl | he
  · exact ⟨rfl, rfl, rfl, rfl⟩
  · exact ⟨rfl, rfl, rfl, rfl⟩
  · exact ⟨rfl, rfl, rfl, rfl⟩
  · exact ⟨rfl, rfl, rfl, rfl⟩
  · obtain ⟨a, _, hea⟩ := List.mem_flatMap.mp he
    exact entryEff_benign e hea

/-- A trace with no exit and no raise yields exit status 0. -/
theorem exitCodeOf_of_benign {effs : List Eff}
    (h : ∀ e ∈ effs, isExitEff e = false ∧ isRaiseEff e = false) :
    exitCodeOf effs = 0 := by
  induction effs with
  | nil => rfl
  | cons e rest ih =>
    have he := h e (List.mem_cons_self e rest)
    have hrest : ∀ e' ∈ rest, isExitEff e' = false ∧ isRaiseEff e' = false :=
      fun e' he' => h e' (List.mem_cons_of_mem e he')
    cases e with
    | exitOp c => exact absurd he.1 (by simp [isExitEff])
    | raiseOp m => exact absurd he.2 (by simp [isRaiseEff])
    | existsCheck p => exact ih hrest
    | openZip p => exact ih hrest
    | openRead p => exact ih hrest
    | seekOp p o => exact ih hrest
    | readOp p n => exact ih hrest
    | writeOp p c => exact ih hrest
    | printOut s => exact ih hrest
    | printErr s => exact ih hrest

/-- A trace with no raise is not a crash. -/
theorem crashedOf_of_benign {effs : List Eff}
    (h : ∀ e ∈ effs, isRaiseEff e = false) :
    crashedOf effs = false := by
  unfold crashedOf
  rw [List.any_eq_false]
  intro e he
  simp [h e he]

/-- A trace with no write leaves the filesystem unchanged. -/
theorem finalFS_of_no_write {effs : List Eff} :
    ∀ {fs : FS}, (∀ e ∈ effs, isWriteEff e = false) → finalFS fs effs = fs := by
  induction effs with
  | nil => intro fs _; rfl
  | cons e rest ih =>
    intro fs h
    have he : isWriteEff e = false := (h e (List.mem_cons_self e rest))
    have hstep : applyEff fs e = fs := by
      cases e <;> first | rfl | simp [isWriteEff] at he
    unfold finalFS at ih ⊢
    rw [List.foldl_cons, hstep]
    exact ih (fun e' he' => h e' (List.mem_cons_of_mem e he'))

/-- The expansion of an element under `flatMap` is an infix of the
result. -/
theorem isInfix_flatMap_of_mem {α β : Type} (f : α → List β) {a : α}
    {l : List α} (ha : a ∈ l) :
    List.IsInfix (f a) (l.flatMap f) := by
  induction l with
  | nil => cases ha
  | cons b t ih =>
    rw [List.flatMap_cons]
    rcases List.mem_cons.mp ha with rfl | ha'
    · exact ⟨[], t.flatMap f, rfl⟩
    · obtain ⟨s, u, hsu⟩ := ih ha'
      exact ⟨f b ++ s, u, by rw [← hsu]; simp⟩

/-- An infix of a trace stays an infix after consing an effect. -/
theorem isInfix_cons_of_isInfix {l₁ l₂ : List Eff} {a : Eff}
    (h : List.IsInfix l₁ l₂) : List.IsInfix l₁ (a :: l₂) := by
  obtain ⟨s, u, hsu⟩ := h
  exact ⟨a :: s, u, by rw [← hsu]; rfl⟩

/-- A line printed during a run appears in the run's stdout. -/
theorem mem_outputOf {effs : List Eff} {s : String}
    (h : Eff.printOut s ∈ effs) : s ∈ outputOf effs := by
  unfold outputOf
  rw [List.mem_filterMap]
  exact ⟨.printOut s, h, rfl⟩

/-! Claim theorems. -/

/-- C1: for every entry found in the central directory whose local header
is fully readable (the report case of the loop body), the computed data
offset equals `header_offset + 30 + filename_length + extra_length`,
where the two length fields are the 2-byte little-endian integers at
byte offsets 26 and 28 of the 30-byte local header read at
`header_offset` — i.e. the computation agrees with the
specification-side `dataOffsetSpec`. -/
theorem claim_C1_data_offset (z : ZipArchive) (name : String)
    (info : ZipEntryInfo) (flen elen d : Nat)
    (h : processEntry z name = .report info flen elen d) :
    d = info.header_offset + 30 + flen + elen ∧
    flen = le16 (readBytes z.bytes info.header_offset 30) 26 ∧
    elen = le16 (readBytes z.bytes info.header_offset 30) 28 ∧
    d = dataOffsetSpec z.bytes info.header_offset := by
  obtain ⟨hg, hf, he, hd⟩ := processEntry_report_inv h
  refine ⟨hd, hf, he, ?_⟩
  rw [hd, hf, he]
  unfold dataOffsetSpec le16
  rw [readBytes_getD _ _ 26 (by omega), readBytes_getD _ _ 27 (by omega),
      readBytes_getD _ _ 28 (by omega), readBytes_getD _ _ 29 (by omega)]

/-- C1 witness: the concrete archive `zipA` (filename length 5, extra
length 2, header offset 0) yields data offset 37. -/
theorem claim_C1_witness :
    processEntry zipA "lib/arm64-v8a/liboboe.so" = .report infoA 5 2 37 ∧
    (37 = infoA.header_offset + 30 + 5 + 2 ∧
     5 = le16 (readBytes zipA.bytes infoA.header_offset 30) 26 ∧
     2 = le16 (readBytes zipA.bytes infoA.header_offset 30) 28 ∧
     37 = dataOffsetSpec zipA.bytes infoA.header_offset) :=
  ⟨by decide,
   claim_C1_data_offset zipA "lib/arm64-v8a/liboboe.so" infoA 5 2 37 (by decide)⟩

/-- C2: with no file at the resolved path, the script prints a message
containing the attempted path, then usage text, exits with status 2, and
never opens the archive (so no entry lookup is attempted). -/
theorem claim_C2_missing_archive (fs : FS) (argv : List String)
    (h : fs.lookup (resolveApk argv) = none) :
    runEff fs argv =
      [.existsCheck (resolveApk argv),
       .printOut ("APK not found at " ++ resolveApk argv),
       .printOut "", .printOut usageLine, .exitOp 2] ∧
    ("APK not found at " ++ resolveApk argv) ∈ outputOf (runEff fs argv) ∧
    usageLine ∈ outputOf (runEff fs argv) ∧
    exitCodeOf (runEff fs argv) = 2 ∧
    (runEff fs argv).all (fun e => !(isOpenEff e)) = true := by
  have hr := runEff_none h
  refine ⟨hr, ?_, ?_, ?_, ?_⟩ <;> rw [hr] <;>
    simp [outputOf, exitCodeOf, isOpenEff]

/-- C2 witness: the empty filesystem with an explicit path argument. -/
theorem claim_C2_witness :
    fsEmpty.lookup (resolveApk ["check_apk_alignment.py", "missing.apk"]) = none ∧
    exitCodeOf (runEff fsEmpty ["check_apk_alignment.py", "missing.apk"]) = 2 :=
  ⟨rfl,
   (claim_C2_missing_archive fsEmpty
     ["check_apk_alignment.py", "missing.apk"] rfl).2.2.2.1⟩

/-- C6: every computed data offset satisfies the standard non-negative
modulo identity for 16384 and is non-negative. -/
theorem claim_C6_mod_identity (z : ZipArchive) (name : String)
    (info : ZipEntryInfo) (flen elen d : Nat)
    (_h : processEntry z name = .report info flen elen d) :
    d % 16384 = d - 16384 * (d / 16384) ∧ 0 ≤ (d : Int) :=
  ⟨by omega, Int.natCast_nonneg d⟩

/-- C6 witness: the data offset 37 computed on `zipA`. -/
theorem claim_C6_witness :
    processEntry zipA "lib/arm64-v8a/liboboe.so" = .report infoA 5 2 37 ∧
    (37 % 16384 = 37 - 16384 * (37 / 16384) ∧ 0 ≤ (37 : Int)) :=
  ⟨by decide,
   claim_C6_mod_identity zipA "lib/arm64-v8a/liboboe.so" infoA 5 2 37 (by decide)⟩

/-- C7: for an entry whose local header has a zero extra-field length,
`data_offset - header_offset - 30` recovers the filename-length field
exactly. -/
theorem claim_C7_round_trip (z : ZipArchive) (name : String)
    (info : ZipEntryInfo) (flen d : Nat)
    (h : processEntry z name = .report info flen 0 d) :
    d - info.header_offset - 30 = flen := by
  obtain ⟨-, -, -, hd⟩ := processEntry_report_inv h
  omega

/-- C7 witness: `zipB` (filename length 24, extra length 0) yields data
offset 54, and 54 - 0 - 30 = 24. -/
theorem claim_C7_witness :
    processEntry zipB "lib/arm64-v8a/liboboe.so" = .report infoA 24 0 54 ∧
    54 - infoA.header_offset - 30 = 24 :=
  ⟨by decide,
   claim_C7_round_trip zipB "lib/arm64-v8a/liboboe.so" infoA 24 54 (by decide)⟩

/-- C3: with a readable archive, every target name absent from the
central directory is reported "NOT FOUND" and processing continues;
with both target entries missing, both are reported NOT FOUND and the
exit status is still 0. -/
theorem claim_C3_not_found (fs : FS) (argv : List String) (z : ZipArchive)
    (h : fs.lookup (resolveApk argv) = some (.zip z)) :
    (∀ name ∈ libraries, getinfo z name = none →
       entryEff (resolveApk argv) z name = [.printOut (name ++ " NOT FOUND")] ∧
       (name ++ " NOT FOUND") ∈ outputOf (runEff fs argv)) ∧
    ((∀ name ∈ libraries, getinfo z name = none) →
       ("lib/arm64-v8a/liboboe.so" ++ " NOT FOUND") ∈ outputOf (runEff fs argv) ∧
       ("lib/arm64-v8a/liboboe_synth.so" ++ " NOT FOUND") ∈ outputOf (runEff fs argv) ∧
       exitCodeOf (runEff fs argv) = 0) := by
  have hpart : ∀ name ∈ libraries, getinfo z name = none →
      entryEff (resolveApk argv) z name = [.printOut (name ++ " NOT FOUND")] ∧
      (name ++ " NOT FOUND") ∈ outputOf (runEff fs argv) := by
    intro name hm hn
    have hpe : processEntry z name = .notFound := by
      unfold processEntry
      rw [hn]
    have hent : entryEff (resolveApk argv) z name =
        [.printOut (name ++ " NOT FOUND")] := by
      unfold entryEff
      rw [hpe]
    refine ⟨hent, mem_outputOf ?_⟩
    rw [runEff_zip h]
    simp only [List.mem_cons]
    refine Or.inr (Or.inr (Or.inr (Or.inr ?_)))
    rw [List.mem_flatMap]
    exact ⟨name, hm, by rw [hent]; exact List.mem_cons_self _ _⟩
  refine ⟨hpart, fun hall => ?_⟩
  have h1 : "lib/arm64-v8a/liboboe.so" ∈ libraries := by simp [libraries]
  have h2 : "lib/arm64-v8a/liboboe_synth.so" ∈ libraries := by simp [libraries]
  refine ⟨(hpart _ h1 (hall _ h1)).2, (hpart _ h2 (hall _ h2)).2, ?_⟩
  exact exitCodeOf_of_benign (fun e he =>
    ⟨(runEff_zip_benign h e he).2.2.1, (runEff_zip_benign h e he).2.2.2⟩)

/-- C3 witness: an archive with an empty central directory. -/
theorem claim_C3_witness :
    (fsWith "test.apk" (.zip zipEmpty)).lookup (resolveApk ["p", "test.apk"]) =
      some (.zip zipEmpty) ∧
    (∀ name ∈ libraries, getinfo zipEmpty name = none) ∧
    (("lib/arm64-v8a/liboboe.so" ++ " NOT FOUND") ∈
       outputOf (runEff (fsWith "test.apk" (.zip zipEmpty)) ["p", "test.apk"]) ∧
     ("lib/arm64-v8a/liboboe_synth.so" ++ " NOT FOUND") ∈
       outputOf (runEff (fsWith "test.apk" (.zip zipEmpty)) ["p", "test.apk"]) ∧
     exitCodeOf (runEff (fsWith "test.apk" (.zip zipEmpty)) ["p", "test.apk"]) = 0) :=
  ⟨rfl, by decide,
   (claim_C3_not_found (fsWith "test.apk" (.zip zipEmpty)) ["p", "test.apk"]
     zipEmpty rfl).2 (by decide)⟩

/-- C4: a target entry whose local header read yields fewer than 30
bytes is reported as a header-read failure, the run does not crash, and
every library name's per-entry effects still appear in the trace. -/
theorem claim_C4_truncated_header (fs : FS) (argv : List String)
    (z : ZipArchive) (info : ZipEntryInfo) (name : String)
    (h : fs.lookup (resolveApk argv) = some (.zip z))
    (hm : name ∈ libraries)
    (hg : getinfo z name = some info)
    (ht : (readBytes z.bytes info.header_offset 30).length < 30) :
    processEntry z name = .headerReadFailure info ∧
    (name ++ " failed to read local header") ∈ outputOf (runEff fs argv) ∧
    crashedOf (runEff fs argv) = false ∧
    ∀ name2 ∈ libraries,
      List.IsInfix (entryEff (resolveApk argv) z name2) (runEff fs argv) := by
  have hpe : processEntry z name = .headerReadFailure info := by
    unfold processEntry
    rw [hg]
    exact if_pos ht
  have hent : entryEff (resolveApk argv) z name =
      [.openRead (resolveApk argv), .seekOp (resolveApk argv) info.header_offset,
       .readOp (resolveApk argv) 30,
       .printOut (name ++ " failed to read local header")] := by
    unfold entryEff
    rw [hpe]
  refine ⟨hpe, mem_outputOf ?_, ?_, ?_⟩
  · rw [runEff_zip h]
    simp only [List.mem_cons]
    refine Or.inr (Or.inr (Or.inr (Or.inr ?_)))
    rw [List.mem_flatMap]
    refine ⟨name, hm, by rw [hent]; simp⟩
  · exact crashedOf_of_benign (fun e he => (runEff_zip_benign h e he).2.2.2)
  · intro name2 hm2
    rw [runEff_zip h]
    exact isInfix_cons_of_isInfix (isInfix_cons_of_isInfix
      (isInfix_cons_of_isInfix (isInfix_cons_of_isInfix
        (isInfix_flatMap_of_mem _ hm2))))

/-- C4 witness: `zipTrunc` lists the first library but holds only two
bytes, so the header read is short; the second library is still
processed (its NOT FOUND effects are an infix of the trace). -/
theorem claim_C4_witness :
    (fsWith "t.apk" (.zip zipTrunc)).lookup (resolveApk ["p", "t.apk"]) =
      some (.zip zipTrunc) ∧
    "lib/arm64-v8a/liboboe.so" ∈ libraries ∧
    getinfo zipTrunc "lib/arm64-v8a/liboboe.so" = some infoA ∧
    (readBytes zipTrunc.bytes infoA.header_offset 30).length < 30 ∧
    (("lib/arm64-v8a/liboboe.so" ++ " failed to read local header") ∈
       outputOf (runEff (fsWith "t.apk" (.zip zipTrunc)) ["p", "t.apk"]) ∧
     crashedOf (runEff (fsWith "t.apk" (.zip zipTrunc)) ["p", "t.apk"]) = false) :=
  ⟨rfl, by decide, by decide, by decide,
   ⟨(claim_C4_truncated_header (fsWith "t.apk" (.zip zipTrunc)) ["p", "t.apk"]
       zipTrunc infoA "lib/arm64-v8a/liboboe.so" rfl (by decide) (by decide)
       (by decide)).2.1,
    (claim_C4_truncated_header (fsWith "t.apk" (.zip zipTrunc)) ["p", "t.apk"]
       zipTrunc infoA "lib/arm64-v8a/liboboe.so" rfl (by decide) (by decide)
       (by decide)).2.2.1⟩⟩

/-- C5 (amended): a readable zip archive always completes with exit
status 0 and no crash, regardless of per-entry outcomes; a non-zero exit
status arises only from the missing-archive condition (status 2) or from
the unhandled `BadZipFile` exception on an existing file that is not a
readable zip (interpreter status 1). -/
theorem claim_C5_exit_codes :
    (∀ (fs : FS) (argv : List String) (z : ZipArchive),
       fs.lookup (resolveApk argv) = some (.zip z) →
       exitCodeOf (runEff fs argv) = 0 ∧ crashedOf (runEff fs argv) = false) ∧
    (∀ (fs : FS) (argv : List String),
       exitCodeOf (runEff fs argv) ≠ 0 →
       fs.lookup (resolveApk argv) = none ∨
       (fs.lookup (resolveApk argv) = some .notZip ∧
        crashedOf (runEff fs argv) = true ∧
        exitCodeOf (runEff fs argv) = 1)) := by
  have hzip : ∀ (fs : FS) (argv : List String) (z : ZipArchive),
      fs.lookup (resolveApk argv) = some (.zip z) →
      exitCodeOf (runEff fs argv) = 0 ∧ crashedOf (runEff fs argv) = false := by
    intro fs argv z h
    exact ⟨exitCodeOf_of_benign (fun e he =>
        ⟨(runEff_zip_benign h e he).2.2.1, (runEff_zip_benign h e he).2.2.2⟩),
      crashedOf_of_benign (fun e he => (runEff_zip_benign h e he).2.2.2)⟩
  refine ⟨hzip, ?_⟩
  intro fs argv hne
  cases hc : fs.lookup (resolveApk argv) with
  | none => exact Or.inl rfl
  | some c =>
    cases c with
    | zip z => exact absurd (hzip fs argv z hc).1 hne
    | notZip =>
      refine Or.inr ⟨rfl, ?_, ?_⟩
      · rw [runEff_notZip hc]
        simp [crashedOf, isRaiseEff]
      · rw [runEff_notZip hc]
        rfl

/-- C5 counterexample: the claim as stated says a non-zero exit status
arises only from a missing archive, but an existing file that is not a
zip archive yields exit status 1 with the archive present. -/
theorem claim_C5_counterexample :
    exitCodeOf (runEff (fsWith "broken.apk" .notZip) ["p", "broken.apk"]) = 1 ∧
    (fsWith "broken.apk" .notZip).lookup (resolveApk ["p", "broken.apk"]) =
      some .notZip ∧
    ¬ (∀ (fs : FS) (argv : List String),
         exitCodeOf (runEff fs argv) ≠ 0 →
         fs.lookup (resolveApk argv) = none) := by
  refine ⟨by decide, by decide, fun hall => ?_⟩
  have h := hall (fsWith "broken.apk" .notZip) ["p", "broken.apk"] (by decide)
  exact absurd h (by decide)

/-- C5 witness: a readable zip completes with status 0. -/
theorem claim_C5_witness :
    (fsWith "test.apk" (.zip zipA)).lookup (resolveApk ["p", "test.apk"]) =
      some (.zip zipA) ∧
    exitCodeOf (runEff (fsWith "test.apk" (.zip zipA)) ["p", "test.apk"]) = 0 :=
  ⟨rfl, (claim_C5_exit_codes.1 (fsWith "test.apk" (.zip zipA)) ["p", "test.apk"]
      zipA rfl).1⟩

/-- C8: a run never writes to the filesystem (the final filesystem is
the initial one, and no trace effect is a write) and never prints to
standard error. -/
theorem claim_C8_read_only (fs : FS) (argv : List String) :
    finalFS fs (runEff fs argv) = fs ∧
    (runEff fs argv).all (fun e => !(isWriteEff e)) = true ∧
    (runEff fs argv).all (fun e => !(isErrPrintEff e)) = true := by
  have hnw : ∀ e ∈ runEff fs argv,
      isWriteEff e = false ∧ isErrPrintEff e = false := by
    cases hc : fs.lookup (resolveApk argv) with
    | none =>
      intro e he
      rw [runEff_none hc] at he
      simp only [List.mem_cons, List.not_mem_nil, or_false] at he
      rcases he with rfl | rfl | rfl | rfl | rfl <;> exact ⟨rfl, rfl⟩
    | some c =>
      cases c with
      | notZip =>
        intro e he
        rw [runEff_notZip hc] at he
        simp only [List.mem_cons, List.not_mem_nil, or_false] at he
        rcases he with rfl | rfl | rfl <;> exact ⟨rfl, rfl⟩
      | zip z =>
        intro e he
        exact ⟨(runEff_zip_benign hc e he).1, (runEff_zip_benign hc e he).2.1⟩
  refine ⟨finalFS_of_no_write (fun e he => (hnw e he).1), ?_, ?_⟩
  · rw [List.all_eq_true]
    intro e he
    simp [(hnw e he).1]
  · rw [List.all_eq_true]
    intro e he
    simp [(hnw e he).2]

/-- C9: without a command-line argument the archive path defaults to the
debug-build output path, and the run checks exactly the two hardcoded
library names in order. -/
theorem claim_C9_defaults (argv : List String) (h : argv.length ≤ 1) :
    resolveApk argv = "app/build/outputs/apk/debug/app-debug.apk" ∧
    libraries = ["lib/arm64-v8a/liboboe.so", "lib/arm64-v8a/liboboe_synth.so"] ∧
    ∀ (fs : FS) (z : ZipArchive),
      fs.lookup defaultApk = some (.zip z) →
      runEff fs argv =
        Eff.existsCheck defaultApk :: Eff.openZip defaultApk ::
        Eff.printOut ("Checking: " ++ defaultApk) :: Eff.printOut "" ::
        (entryEff defaultApk z "lib/arm64-v8a/liboboe.so" ++
         entryEff defaultApk z "lib/arm64-v8a/liboboe_synth.so") := by
  have hres : resolveApk argv = defaultApk := by
    rcases argv with _ | ⟨a, _ | ⟨b, t⟩⟩
    · rfl
    · rfl
    · simp at h
  refine ⟨hres, rfl, ?_⟩
  intro fs z hz
  have hz' : fs.lookup (resolveApk argv) = some (.zip z) := by
    rw [hres]; exact hz
  rw [runEff_zip hz', hres]
  simp [libraries]

/-- C9 witness: invocation with only the program name. -/
theorem claim_C9_witness :
    ([("check_apk_alignment.py" : String)].length ≤ 1) ∧
    resolveApk ["check_apk_alignment.py"] =
      "app/build/outputs/apk/debug/app-debug.apk" :=
  ⟨by decide, (claim_C9_defaults ["check_apk_alignment.py"] (by decide)).1⟩

/-- C10: a path holding an existing file that is not a valid zip makes
the run raise an unhandled exception right after opening the central
directory, with no per-entry output and an exit status that is neither 0
nor 2. -/
theorem claim_C10_bad_zip_crash :
    runEff (fsWith defaultApk .notZip) ["check_apk_alignment.py"] =
      [.existsCheck defaultApk, .openZip defaultApk, .raiseOp "BadZipFile"] ∧
    outputOf (runEff (fsWith defaultApk .notZip) ["check_apk_alignment.py"]) = [] ∧
    crashedOf (runEff (fsWith defaultApk .notZip) ["check_apk_alignment.py"]) = true ∧
    exitCodeOf (runEff (fsWith defaultApk .notZip) ["check_apk_alignment.py"]) ≠ 0 ∧
    exitCodeOf (runEff (fsWith defaultApk .notZip) ["check_apk_alignment.py"]) ≠ 2 :=
  ⟨by decide, by decide, by decide, by decide, by decide⟩
